import Mathlib

/-!
Verification of the MindfulMachines podcast pipeline against its design notes.

Shallow embedding conventions:
* Python `datetime` values are integer Unix timestamps in seconds (`Time`);
  `timedelta.days` is floor division of the difference by 86400, matching
  Python, including on negative differences.
* Python `sorted(..., key=..., reverse=True)` is a stable descending sort;
  it is embedded as `List.insertionSort` with the relation `rankLe`
  (insertion sort is stable and any two stable sorts for the same total
  preorder agree on every input).
* Side effects that the surrounding code observes are returned explicitly:
  `logging` calls become a `List LogEntry` component, `print` calls a
  `List String` component, and the external-call sites of
  `script_to_audio.py` a `List AudioEvent` trace.
* Results of external interactions (the feed parser, the LLM query, the TTS
  request) are passed in as explicit outcome values, since the Python code
  merely branches on them.
-/

namespace MindfulMachines

/-- Unix timestamp in seconds, standing for a Python `datetime`. -/
abbrev Time := Int

/-- Python `timedelta.days`: the timedelta holds `delta` seconds; `.days` is
the floor of `delta / 86400` (Python floor division, also for negatives). -/
def timedeltaDays (delta : Int) : Int := Int.fdiv delta 86400

/-- A paper record as built by `arxiv_scrapper.fetch_recent_papers`
(dictionary with title, authors, summary, link, published, updated); the
`score` key is absent (`none`) until `paper_ranker.rank_papers` sets it. -/
structure Paper where
  title : String
  authors : List String
  summary : String
  link : String
  published : Time
  updated : Time
  score : Option Int := none
  deriving DecidableEq, Repr

/-- Levels of the `logging` module used by the sources. -/
inductive LogLevel where
  | info
  | warning
  | error
  deriving DecidableEq, Repr

/-- One emitted `logging` record (f-string interpolations are elided from
the message text where they do not matter to any claim). -/
structure LogEntry where
  level : LogLevel
  msg : String
  deriving DecidableEq, Repr

/-! ### paper_ranker.py -/

/-- The simple-strategy score:
`score = 0; recency_score = (datetime.now() - paper[published]).days;`
`score += max(0, 30 - recency_score)` (paper_ranker.py lines 44-47). -/
def recencyScore (now published : Time) : Int :=
  max 0 (30 - timedeltaDays (now - published))

/-- `paper[score] = score` for the simple strategy: the paper dictionary
with its score key set. -/
def scorePaper (now : Time) (p : Paper) : Paper :=
  { p with score := some (recencyScore now p.published) }

/-- The sort key `lambda p: p[score]` (paper_ranker.py line 60).  On the
path where the sort runs, every paper has just been given a score, so the
`getD 0` default is never consulted. -/
def sortKey (p : Paper) : Int := p.score.getD 0

/-- The total preorder realised by
`sorted(scored_papers, key=lambda p: p[score], reverse=True)`:
`a` may come before `b` iff the score of `a` is at least the score of `b`. -/
def rankLe (a b : Paper) : Prop := sortKey b ≤ sortKey a

instance : DecidableRel rankLe :=
  fun a b => inferInstanceAs (Decidable (sortKey b ≤ sortKey a))

instance : IsTotal Paper rankLe :=
  ⟨fun a b => le_total (sortKey b) (sortKey a)⟩

instance : IsTrans Paper rankLe :=
  ⟨fun _ _ _ hab hbc => le_trans hbc hab⟩

/-- `paper_ranker.rank_papers(papers, ranking_strategy)` (lines 22-72), with
`datetime.now()` passed in as `now`.  Returns the emitted log records
together with the returned list.  The `sorted(..., reverse=True)` call is a
stable descending sort, embedded as `List.insertionSort rankLe`. -/
def rank_papers (papers : List Paper) (ranking_strategy : String) (now : Time) :
    List LogEntry × List Paper :=
  if papers = [] then
    ([⟨LogLevel.warning, "No papers provided to rank."⟩], [])
  else
    if ranking_strategy = "simple" then
      ([⟨LogLevel.info, "Ranking papers using the strategy."⟩],
        (papers.map (scorePaper now)).insertionSort rankLe)
    else
      ([⟨LogLevel.info, "Ranking papers using the strategy."⟩,
        ⟨LogLevel.error, "Unknown ranking strategy."⟩], papers)

/-- `paper_ranker.select_top_paper(ranked_papers, top_n)` (lines 74-93):
an empty-list early return (with a warning, elided), else the Python slice
`ranked_papers[:top_n]`.  There is no abstract-length parameter or check in
the source; the To-Do at lines 89-91 marks that check as unimplemented. -/
def select_top_paper (ranked_papers : List Paper) (top_n : Nat) : List Paper :=
  if ranked_papers = [] then []
  else ranked_papers.take top_n

/-! ### arxiv_scrapper.py -/

/-- A raw feed entry as read by `feedparser` (all fields present, as the
code assumes when it builds the paper dictionary). -/
structure FeedEntry where
  title : String
  authors : List String
  summary : String
  link : String
  published_parsed : Time
  updated_parsed : Time
  deriving DecidableEq, Repr

/-- The object returned by `feedparser.parse`. -/
structure Feed where
  bozo : Bool
  entries : List FeedEntry
  deriving DecidableEq, Repr

/-- Result of the `feedparser.parse(base_url + search_query)` call: either
the call itself raised (network failure), or it returned a feed object
(whose `bozo` flag marks a parse failure). -/
inductive ParseResult where
  | raised
  | returned (response : Feed)
  deriving DecidableEq, Repr

/-- The failure cases of `fetch_recent_papers`: the parse call raised, or
the feed came back with `bozo` set (which the code turns into a raised and
then caught exception). -/
def parseFailed : ParseResult → Prop
  | ParseResult.raised => True
  | ParseResult.returned response => response.bozo = true

instance : DecidablePred parseFailed := fun net => by
  cases net with
  | raised => exact isTrue trivial
  | returned response => exact inferInstanceAs (Decidable (response.bozo = true))

/-- The paper dictionary built from one feed entry
(arxiv_scrapper.py lines 61-68). -/
def entryToPaper (e : FeedEntry) : Paper :=
  { title := e.title
    authors := e.authors
    summary := e.summary
    link := e.link
    published := e.published_parsed
    updated := e.updated_parsed }

/-- `arxiv_scrapper.fetch_recent_papers(query, max_results, sort_by)`
(lines 36-74).  `net` is the result of the `feedparser.parse` call on the
constructed URL.  First component: the `print` output; second: the returned
list.  Every failure path is caught and yields the empty list. -/
def fetch_recent_papers (query : String) (max_results : Nat) (sort_by : String)
    (net : ParseResult) : List String × List Paper :=
  let url := "http://export.arxiv.org/api/query?search_query=all:" ++ query
    ++ "&start=0&max_results=" ++ toString max_results ++ "&sortBy=" ++ sort_by
  let fetching := "Fetching papers with query: " ++ query ++ "... via " ++ url
  match net with
  | ParseResult.raised =>
      (  [fetching, "An error occurred."], [])
  | ParseResult.returned response =>
      if response.bozo then
        ([fetching, "An error occurred: Failed to parse feed. Is the arXiv API reachable?"], [])
      else
        ([fetching], response.entries.map entryToPaper)

/-- `arxiv_scrapper.filter_papers_by_timeframe(papers, days)` (lines 76-93)
with `datetime.now()` passed in as `now`: the cutoff is computed once at
call entry, then a single list comprehension keeps
`p[published] > cutoff_date or p[updated] > cutoff_date`. -/
def filter_papers_by_timeframe (papers : List Paper) (days : Int) (now : Time) :
    List Paper :=
  let cutoff_date := now - days * 86400
  papers.filter fun p =>
    decide (cutoff_date < p.published) || decide (cutoff_date < p.updated)

/-- The `[arxiv]` configuration the scraper reads from settings.ini. -/
structure ArxivConfig where
  query : String
  max_results : Nat
  deriving DecidableEq, Repr

/-- `arxiv_scrapper.scrape_papers(config)` (lines 95-129).  The body
re-loads the settings file (ignoring its argument), fetches, and on the
empty-fetch path executes a bare `return`; on the success path it filters,
prints the titles, and falls off the end of the function.  Neither path has
a `return` with a value, so the Python function returns `None` (here
`none`) on every path. -/
def scrape_papers (config : ArxivConfig) (net : ParseResult) (now : Time) :
    List String × Option (List Paper) :=
  let fetched := fetch_recent_papers config.query config.max_results "relevance" net
  let all_papers := fetched.2
  if all_papers = [] then
    (fetched.1 ++ ["No papers found. Exiting."], none)
  else
    let recent_papers := filter_papers_by_timeframe all_papers 7 now
    (fetched.1 ++ ["-- Fetched Papers --"] ++ recent_papers.map (fun p => p.title), none)

/-! ### llm_podcaster.py -/

/-- Outcome of the try-block of `generate_podcast_script`: the temp-file
write, the document load, the index build and the LLM query collapse into
either a raised exception (any step) or the response text of
`query_engine.query(prompt)`. -/
inductive GenOutcome where
  | raised
  | responded (text : String)
  deriving DecidableEq, Repr

/-- `llm_podcaster.generate_podcast_script(paper, config)` (lines 30-115).
On success the raw response text `str(response)` is returned as-is (the
post-processing in To-Do 4 is unimplemented); on any exception the error is
logged and the empty string is returned, as the docstring states. -/
def generate_podcast_script (paper : Paper) (llm : GenOutcome) :
    List LogEntry × String :=
  let header : LogEntry :=
    ⟨LogLevel.info, "Generating podcast script for paper: " ++ paper.title⟩
  match llm with
  | GenOutcome.raised =>
      ([header, ⟨LogLevel.error, "Failed to generate podcast script."⟩], "")
  | GenOutcome.responded text => ([header], text)

/-! ### script_to_audio.py -/

/-- One entry of the `dialogue` list of the structured script
(see the mock script in script_to_audio.main). -/
structure DialogueLine where
  speaker : String
  text : String
  deriving DecidableEq, Repr

/-- The structured script dictionary passed to `generate_podcast_audio`. -/
structure Script where
  title : String
  dialogue : List DialogueLine
  deriving DecidableEq, Repr

/-- The configuration keys `generate_podcast_audio` reads. -/
structure TtsConfig where
  tts_api_key : String
  api_url : String
  expert_1 : String
  expert_2 : String
  expert_3 : String
  deriving DecidableEq, Repr

/-- Outcome of the `requests.post` call: a transport error
(RequestException), a response whose JSON lacks the expected shape
(KeyError or IndexError path), or a well-shaped audio payload. -/
inductive TtsOutcome where
  | requestError
  | badResponseShape
  | audio (data : String)
  deriving DecidableEq, Repr

/-- Externally visible steps of `generate_podcast_audio`, in order. -/
inductive AudioEvent where
  | postRequest
  | wavWritten
  deriving DecidableEq, Repr

/-- `script_to_audio.generate_podcast_audio(script, config)` (lines
51-140), with the `requests.post` outcome passed in.  The function builds
`speaker_voice_mapping` from the three configured expert names and a
placeholder payload whose text is a fixed greeting: the `script` argument
is never consulted (To-Do 2 in the source), no speaker of the script is
checked against the mapping, and the post is always attempted.  Returns
the ordered trace of external steps and the boolean the function returns. -/
def generate_podcast_audio (script : Script) (config : TtsConfig)
    (net : TtsOutcome) : List AudioEvent × Bool :=
  match net with
  | TtsOutcome.requestError => ([AudioEvent.postRequest], false)
  | TtsOutcome.badResponseShape => ([AudioEvent.postRequest], false)
  | TtsOutcome.audio _ => ([AudioEvent.postRequest, AudioEvent.wavWritten], true)

/-! ### main.py -/

/-- The stages of `main.main` as they appear in its body, plus its exit
paths. -/
inductive PipeEvent where
  | scraping
  | exitNoPapers
  | ranking
  | selecting
  | exitNoSelection
  | synthesizing
  | exitNoScript
  | scriptSaved
  | rendering
  | audioDone
  | audioFailed
  | abortedUnhandled
  deriving DecidableEq, Repr

/-- `main.main()` (main.py lines 30-98) as its ordered stage trace.
`papers = scrape_papers(config)` is always `None` (see `scrape_papers`), so
the `if not papers` guard exits on every run.  The later stages are still
modelled for completeness: had `papers` been a non-empty list,
`rank_papers(papers, config)` passes the ConfigParser object as the
strategy (it compares unequal to the string simple, taking the
unknown-strategy branch), and `generate_podcast_script(selected_paper,
config)` passes the selected LIST as `paper`, whose `paper[title]` access
raises a TypeError before that function's try block, reaching the outer
except of `main` (abort). -/
def mainTrace (config : ArxivConfig) (net : ParseResult) (now : Time)
    (_llm : GenOutcome) (_tts : TtsOutcome) : List PipeEvent :=
  match (scrape_papers config net now).2 with
  | none => [PipeEvent.scraping, PipeEvent.exitNoPapers]
  | some papers =>
    if papers = [] then [PipeEvent.scraping, PipeEvent.exitNoPapers]
    else
      let ranked := (rank_papers papers "<configparser object, not simple>" now).2
      let selected := select_top_paper ranked 1
      if selected = [] then
        [PipeEvent.scraping, PipeEvent.ranking, PipeEvent.selecting,
         PipeEvent.exitNoSelection]
      else
        [PipeEvent.scraping, PipeEvent.ranking, PipeEvent.selecting,
         PipeEvent.synthesizing, PipeEvent.abortedUnhandled]

/-! ### Sample data for witnesses and counterexamples -/

/-- A sample paper published one day before the sample evaluation time 0. -/
def samplePaper : Paper :=
  { title := "Sample paper"
    authors := ["A. Author"]
    summary := "An abstract that is comfortably long enough for selection."
    link := "http://arxiv.org/abs/0000.00001v1"
    published := -86400
    updated := 0 }

/-! ### Helper lemmas: stability of the embedded sort -/

/-- Inserting an element that fails a predicate does not change the
filtered list. -/
theorem filter_orderedInsert_of_neg {α : Type} (r : α → α → Prop)
    [DecidableRel r] (p : α → Bool) (a : α) (h : p a = false) :
    ∀ l : List α, (List.orderedInsert r a l).filter p = l.filter p
  | [] => by simp [h]
  | b :: l => by
    by_cases hr : r a b
    · simp [List.orderedInsert, hr, List.filter_cons, h]
    · simp only [List.orderedInsert, if_neg hr, List.filter_cons]
      rw [filter_orderedInsert_of_neg r p a h l]

/-- Inserting an element that satisfies a predicate puts it in front of the
filtered list, provided the predicate fails on everything the element may
not precede. -/
theorem filter_orderedInsert_of_pos {α : Type} (r : α → α → Prop)
    [DecidableRel r] (p : α → Bool) (a : α) (ha : p a = true)
    (hnone : ∀ b, ¬ r a b → p b = false) :
    ∀ l : List α, (List.orderedInsert r a l).filter p = a :: l.filter p
  | [] => by simp [ha]
  | b :: l => by
    by_cases hr : r a b
    · simp [List.orderedInsert, hr, List.filter_cons, ha]
    · have hpb := hnone b hr
      rw [List.orderedInsert, if_neg hr, List.filter_cons,
        filter_orderedInsert_of_pos r p a ha hnone l, List.filter_cons, hpb]
      simp

/-- Membership of one score class, as a Boolean predicate. -/
def scoreClass (s : Int) (p : Paper) : Bool := sortKey p == s

theorem scoreClass_false_of_not_rankLe {s : Int} {a b : Paper}
    (ha : scoreClass s a = true) (h : ¬ rankLe a b) :
    scoreClass s b = false := by
  simp only [scoreClass, beq_iff_eq] at ha
  simp only [rankLe, not_le] at h
  simp only [scoreClass, beq_eq_false_iff_ne, ne_eq]
  omega

/-- The embedded sort is stable: within each score class the output order is
the input order. -/
theorem insertionSort_stable_scoreClass (s : Int) :
    ∀ l : List Paper,
      (l.insertionSort rankLe).filter (scoreClass s) = l.filter (scoreClass s)
  | [] => rfl
  | a :: l => by
    rw [List.insertionSort, List.filter_cons]
    by_cases ha : scoreClass s a = true
    · rw [filter_orderedInsert_of_pos rankLe (scoreClass s) a ha
        (fun b hb => scoreClass_false_of_not_rankLe ha hb),
        insertionSort_stable_scoreClass s l, if_pos ha]
    · rw [filter_orderedInsert_of_neg rankLe (scoreClass s) a
        (Bool.eq_false_iff.mpr ha),
        insertionSort_stable_scoreClass s l,
        if_neg (by simpa using ha)]

/-! ### Helper lemmas: branch equations of rank_papers -/

theorem rank_papers_simple_eq (papers : List Paper) (now : Time)
    (h : papers ≠ []) :
    rank_papers papers "simple" now =
      ([⟨LogLevel.info, "Ranking papers using the strategy."⟩],
        (papers.map (scorePaper now)).insertionSort rankLe) := by
  unfold rank_papers
  rw [if_neg h, if_pos rfl]

theorem rank_papers_unknown_eq (papers : List Paper) (strategy : String)
    (now : Time) (h : papers ≠ []) (hs : strategy ≠ "simple") :
    rank_papers papers strategy now =
      ([⟨LogLevel.info, "Ranking papers using the strategy."⟩,
        ⟨LogLevel.error, "Unknown ranking strategy."⟩], papers) := by
  unfold rank_papers
  rw [if_neg h, if_neg hs]

/-! ### Claims -/

/-- Claim C1 (confirmed): for every candidate, `rank_papers` with the
simple strategy assigns score `max(0, 30 - age_in_days)`, the age being the
whole (floored) number of days from the published timestamp to evaluation
time; in particular the score of a 0-day-old paper is 30, of a 30-day-old
paper 0, of a 45-day-old paper 0, and the score is never negative. -/
theorem claim_C1 :
    (∀ (papers : List Paper) (now : Time) (q : Paper),
        q ∈ (rank_papers papers "simple" now).2 →
        q.score = some (recencyScore now q.published)) ∧
    (∀ now : Time, recencyScore now now = 30) ∧
    (∀ now : Time, recencyScore now (now - 30 * 86400) = 0) ∧
    (∀ now : Time, recencyScore now (now - 45 * 86400) = 0) ∧
    (∀ now published : Time, 0 ≤ recencyScore now published) := by
  refine ⟨?_, ?_, ?_, ?_, ?_⟩
  · intro papers now q hq
    by_cases h : papers = []
    · subst h; simp [rank_papers] at hq
    · rw [rank_papers_simple_eq papers now h] at hq
      rw [List.mem_insertionSort] at hq
      obtain ⟨p, _, rfl⟩ := List.mem_map.mp hq
      simp [scorePaper]
  · intro now
    have h : now - now = 0 := by ring
    simp [recencyScore, timedeltaDays, h]
  · intro now
    have h : now - (now - 30 * 86400) = 2592000 := by ring
    rw [recencyScore, h]
    decide
  · intro now
    have h : now - (now - 45 * 86400) = 3888000 := by ring
    rw [recencyScore, h]
    decide
  · intro now published
    exact le_max_left 0 _

/-- Witness for C1 at a concrete input. -/
theorem claim_C1_witness :
    (scorePaper 0 samplePaper).score =
      some (recencyScore 0 (scorePaper 0 samplePaper).published) :=
  claim_C1.1 [samplePaper] 0 (scorePaper 0 samplePaper) (by decide)

/-- Claim C2 (confirmed): `filter_papers_by_timeframe` returns exactly the
sublist of candidates with `published > now - window` or
`updated > now - window`, the current time being read once at call entry;
the output is a sublist (subset preserving relative order) of the input and
the empty input yields the empty output. -/
theorem claim_C2 (papers : List Paper) (days : Int) (now : Time) :
    List.Sublist (filter_papers_by_timeframe papers days now) papers ∧
    (∀ p : Paper,
      p ∈ filter_papers_by_timeframe papers days now ↔
        p ∈ papers ∧
          (now - days * 86400 < p.published ∨ now - days * 86400 < p.updated)) ∧
    filter_papers_by_timeframe [] days now = [] := by
  refine ⟨List.filter_sublist _, ?_, rfl⟩
  intro p
  simp [filter_papers_by_timeframe, List.mem_filter]

/-- Witness for C2 at a concrete input. -/
theorem claim_C2_witness :
    samplePaper ∈ filter_papers_by_timeframe [samplePaper] 7 0 :=
  ((claim_C2 [samplePaper] 7 0).2.1 samplePaper).mpr (by decide)

/-- A ranked paper whose abstract has exactly 10 characters. -/
def shortAbstractPaper : Paper :=
  { title := "Short"
    authors := []
    summary := "ten chars!"
    link := "http://arxiv.org/abs/0000.00002v1"
    published := 0
    updated := 0
    score := some 30 }

/-- A lower-ranked paper whose abstract has at least 50 characters. -/
def longAbstractPaper : Paper :=
  { title := "Long"
    authors := []
    summary := "This abstract is certainly longer than fifty characters in total."
    link := "http://arxiv.org/abs/0000.00003v1"
    published := 0
    updated := 0
    score := some 20 }

/-- Claim C3 (code bug): the claim says `select` skips a higher-ranked
candidate whose abstract is shorter than `minAbstractLength`; the source
`select_top_paper` has no such parameter and no length check (its To-Do at
paper_ranker.py lines 89-91 marks the check as unimplemented), so with
`topN = 1` it returns the 10-character-abstract candidate instead of
skipping it. -/
theorem claim_C3 :
    shortAbstractPaper.summary.length = 10 ∧
    50 ≤ longAbstractPaper.summary.length ∧
    select_top_paper [shortAbstractPaper, longAbstractPaper] 1 =
      [shortAbstractPaper] := by
  refine ⟨by decide, by decide, by decide⟩

/-- A candidate published at the sample time with an older update. -/
def tieOlderUpdate : Paper :=
  { title := "Tie older"
    authors := []
    summary := "abstract"
    link := "http://arxiv.org/abs/0000.00004v1"
    published := 0
    updated := -100 }

/-- A candidate with the same published time but a more recent update. -/
def tieNewerUpdate : Paper :=
  { title := "Tie newer"
    authors := []
    summary := "abstract"
    link := "http://arxiv.org/abs/0000.00005v1"
    published := 0
    updated := -50 }

/-- Counterexample to C4 as stated: both candidates get score 30, the
second one has the more recent updated timestamp, yet the output keeps the
first one first — equal scores are not resolved by more-recent updated
(nor by identifier); the sort is stable on input order. -/
theorem claim_C4_cex :
    (rank_papers [tieOlderUpdate, tieNewerUpdate] "simple" 0).2.map
        (fun p => (p.score, p.updated)) =
      [(some 30, -100), (some 30, -50)] := by
  decide

/-- Claim C4 (amended): `rank_papers` with the simple strategy returns a
sequence whose scores are non-increasing (`rankLe` holds pairwise), and
candidates with equal scores keep their relative input order (the sort is
stable: every score class is filtered out of the output in input order);
the updated timestamp and the identifier play no role. -/
theorem claim_C4 (papers : List Paper) (now : Time) :
    List.Sorted rankLe (rank_papers papers "simple" now).2 ∧
    ∀ s : Int,
      (rank_papers papers "simple" now).2.filter (scoreClass s) =
        (papers.map (scorePaper now)).filter (scoreClass s) := by
  by_cases h : papers = []
  · subst h
    exact ⟨by simp [rank_papers], fun s => by simp [rank_papers]⟩
  · rw [rank_papers_simple_eq papers now h]
    exact ⟨List.sorted_insertionSort rankLe _,
      fun s => insertionSort_stable_scoreClass s _⟩

/-- Counterexample to C5 as stated: with an empty candidate list, an
unknown strategy identifier is handled identically to the simple strategy
— the early-return branch runs first, and the only emitted record is the
warning-level no-papers message, so no error-level report of the unknown
strategy is made. -/
theorem claim_C5_cex :
    rank_papers [] "mystery" 0 = rank_papers [] "simple" 0 ∧
    (rank_papers [] "mystery" 0).1 =
      [⟨LogLevel.warning, "No papers provided to rank."⟩] :=
  ⟨rfl, rfl⟩

/-- Claim C5 (amended): for a non-empty candidate list, an unknown strategy
identifier is reported with an error-level log record and the input list is
returned unchanged — it is not scored or reordered as the simple strategy
would do; for the empty list the no-papers early return runs before the
strategy is examined. -/
theorem claim_C5 (papers : List Paper) (strategy : String) (now : Time)
    (h : papers ≠ []) (hs : strategy ≠ "simple") :
    (rank_papers papers strategy now).1.getLast? =
      some ⟨LogLevel.error, "Unknown ranking strategy."⟩ ∧
    (rank_papers papers strategy now).2 = papers := by
  rw [rank_papers_unknown_eq papers strategy now h hs]
  exact ⟨rfl, rfl⟩

/-- Witness for C5 at a concrete input. -/
theorem claim_C5_witness :
    (rank_papers [samplePaper] "mystery" 0).1.getLast? =
      some ⟨LogLevel.error, "Unknown ranking strategy."⟩ ∧
    (rank_papers [samplePaper] "mystery" 0).2 = [samplePaper] :=
  claim_C5 [samplePaper] "mystery" 0 (by decide) (by decide)

/-- Counterexample to C6 as stated: the candidate set handed back to the
caller after a raised network failure is the empty list, exactly the value
handed back after a successful fetch whose feed has zero entries — no
SourceUnavailable condition accompanies it, so the caller cannot
distinguish the two. -/
theorem claim_C6_cex :
    (fetch_recent_papers "llm" 10 "relevance" ParseResult.raised).2 = [] ∧
    (fetch_recent_papers "llm" 10 "relevance"
        (ParseResult.returned ⟨false, []⟩)).2 = [] ∧
    (fetch_recent_papers "llm" 10 "relevance" ParseResult.raised).2 =
      (fetch_recent_papers "llm" 10 "relevance"
        (ParseResult.returned ⟨false, []⟩)).2 := by
  refine ⟨rfl, rfl, rfl⟩

/-- Claim C6 (amended): on every transient network or feed-parse failure
the fetch does not raise (the embedding is a total function whose failure
branches are the caught-exception paths); it prints an error message and
returns the empty list — but no SourceUnavailable condition is signalled to
the caller: the returned value is indistinguishable from a successful fetch
with zero entries. -/
theorem claim_C6 (query : String) (max_results : Nat) (sort_by : String)
    (net : ParseResult) (h : parseFailed net) :
    (fetch_recent_papers query max_results sort_by net).2 = [] ∧
    ((fetch_recent_papers query max_results sort_by net).1.getLast? =
        some "An error occurred." ∨
      (fetch_recent_papers query max_results sort_by net).1.getLast? =
        some "An error occurred: Failed to parse feed. Is the arXiv API reachable?") ∧
    (fetch_recent_papers query max_results sort_by net).2 =
      (fetch_recent_papers query max_results sort_by
        (ParseResult.returned ⟨false, []⟩)).2 := by
  cases net with
  | raised => exact ⟨rfl, Or.inl rfl, rfl⟩
  | returned response =>
      obtain ⟨bozo, entries⟩ := response
      have hb : bozo = true := h
      subst hb
      exact ⟨rfl, Or.inr rfl, rfl⟩

/-- Witness for C6 at a concrete input. -/
theorem claim_C6_witness :
    (fetch_recent_papers "llm" 10 "submittedDate" ParseResult.raised).2 = [] ∧
    ((fetch_recent_papers "llm" 10 "submittedDate" ParseResult.raised).1.getLast? =
        some "An error occurred." ∨
      (fetch_recent_papers "llm" 10 "submittedDate" ParseResult.raised).1.getLast? =
        some "An error occurred: Failed to parse feed. Is the arXiv API reachable?") ∧
    (fetch_recent_papers "llm" 10 "submittedDate" ParseResult.raised).2 =
      (fetch_recent_papers "llm" 10 "submittedDate"
        (ParseResult.returned ⟨false, []⟩)).2 :=
  claim_C6 "llm" 10 "submittedDate" ParseResult.raised trivial

/-- Counterexample to C7 as stated: a failed synthesis hands the caller the
empty string — the very value a successful generation of empty content
hands it — so the failure is not a condition distinguishable from success;
and arbitrary response content with no speaker attribution is handed
onward verbatim as a non-empty success, without being parsed into a turn
sequence or checked against any Script invariant. -/
theorem claim_C7_cex :
    (generate_podcast_script samplePaper GenOutcome.raised).2 = "" ∧
    (generate_podcast_script samplePaper (GenOutcome.responded "")).2 = "" ∧
    (generate_podcast_script samplePaper GenOutcome.raised).2 =
      (generate_podcast_script samplePaper (GenOutcome.responded "")).2 ∧
    (generate_podcast_script samplePaper
        (GenOutcome.responded "plain prose with no speaker attribution")).2 =
      "plain prose with no speaker attribution" :=
  ⟨rfl, rfl, rfl, rfl⟩

/-- Claim C7 (amended): on any service error the function logs an
error-level record and returns the empty string — an in-band sentinel, not
a distinguishable GenerationFailed condition, since a successful empty
response yields the identical return value; on success the raw response
text is returned verbatim, with no parsing into a turn sequence and no
validation against the Script invariants (the post-processing To-Do in the
source is unimplemented). -/
theorem claim_C7 (paper : Paper) (text : String) :
    (generate_podcast_script paper (GenOutcome.responded text)).2 = text ∧
    (generate_podcast_script paper GenOutcome.raised).2 = "" ∧
    (generate_podcast_script paper GenOutcome.raised).2 =
      (generate_podcast_script paper (GenOutcome.responded "")).2 ∧
    (generate_podcast_script paper GenOutcome.raised).1.getLast? =
      some ⟨LogLevel.error, "Failed to generate podcast script."⟩ :=
  ⟨rfl, rfl, rfl, rfl⟩

/-- The voice configuration used by the sample run: the three configured
expert names are the podcast roles. -/
def sampleTtsConfig : TtsConfig :=
  { tts_api_key := "key"
    api_url := "https://tts.example/api"
    expert_1 := "ML Expert"
    expert_2 := "Neuroscientist"
    expert_3 := "Psychologist" }

/-- A script whose only speaker is absent from the voice mapping. -/
def unmappedScript : Script :=
  { title := "Episode"
    dialogue := [{ speaker := "Narrator", text := "Welcome." }] }

/-- Counterexample to C8 as stated: the only speaker of the script matches
none of the three mapped roles, yet the external post is still made (it is
the first external step of the trace) and the call succeeds — no
ConfigurationError is raised before the network call. -/
theorem claim_C8_cex :
    (unmappedScript.dialogue.all fun line =>
        line.speaker == sampleTtsConfig.expert_1 ||
        line.speaker == sampleTtsConfig.expert_2 ||
        line.speaker == sampleTtsConfig.expert_3) = false ∧
    generate_podcast_audio unmappedScript sampleTtsConfig
        (TtsOutcome.audio "UklGRg") =
      ([AudioEvent.postRequest, AudioEvent.wavWritten], true) := by
  refine ⟨by decide, rfl⟩

/-- Claim C8 (amended): `generate_podcast_audio` performs no validation of
the roles referenced by the script — the script argument is never consulted
at all (the payload is a placeholder with fixed text and the three
configured voices), so the result is identical for any two scripts, and the
external post request is always the first step of the trace, whatever roles
the script references. -/
theorem claim_C8 (s s' : Script) (config : TtsConfig) (net : TtsOutcome) :
    generate_podcast_audio s config net = generate_podcast_audio s' config net ∧
    (generate_podcast_audio s config net).1.head? = some AudioEvent.postRequest := by
  cases net with
  | requestError => exact ⟨rfl, rfl⟩
  | badResponseShape => exact ⟨rfl, rfl⟩
  | audio data => exact ⟨rfl, rfl⟩

/-- Claim C9 (code bug): the claim says every run in which synthesis
succeeds persists the Script before the rendering stage.  In the source no
run ever reaches synthesis: `scrape_papers` returns None on every path (its
success path has no return statement), so `main` always takes the
no-papers early exit — for every feed outcome, LLM outcome and TTS outcome
the pipeline trace is exactly the scrape stage followed by the early exit,
and in particular the synthesis, script-saving and rendering events never
occur.  (The save-before-render ordering of main.py lines 80-92 is correct
as written but unreachable.) -/
theorem claim_C9 (config : ArxivConfig) (net : ParseResult) (now : Time)
    (llm : GenOutcome) (tts : TtsOutcome) :
    mainTrace config net now llm tts =
      [PipeEvent.scraping, PipeEvent.exitNoPapers] := by
  have h2 : (scrape_papers config net now).2 = none := by
    simp only [scrape_papers]
    split <;> rfl
  unfold mainTrace
  rw [h2]

/-- Claim C10 (confirmed): for every non-empty candidate list, the simple
strategy returns a permutation of the input candidates, each augmented
with its score field — nothing is dropped, duplicated or invented. -/
theorem claim_C10 (papers : List Paper) (now : Time) (h : papers ≠ []) :
    List.Perm (rank_papers papers "simple" now).2
      (papers.map (scorePaper now)) := by
  rw [rank_papers_simple_eq papers now h]
  exact List.perm_insertionSort rankLe _

/-- Witness for C10 at a concrete input. -/
theorem claim_C10_witness :
    List.Perm (rank_papers [samplePaper] "simple" 0).2
      ([samplePaper].map (scorePaper 0)) :=
  claim_C10 [samplePaper] 0 (by decide)

end MindfulMachines
